import Mathlib

/-!
Verification of the swing/mitigation trend-following strategy engine
(`src/strategy.py`, driver `backtest_all_months.py`).

The Python code is shallowly embedded: pandas rows become a `Bar` record,
the strategy object's mutable fields become the `StratState` record, and
each method becomes a pure function from the old state (plus the bar data)
to the new state.  Python floats are modelled as exact rationals; Python's
`round(x, 2)` (round-half-to-even at two decimals) is modelled by
`round2`.  Bar sequences (`df`) are modelled as a total index function
`ℕ → Bar` together with an explicit length where the code reads `len(df)`.
-/

/-- One OHLC sample.  `day`/`hour` model the fields of the pandas
timestamp that the code actually reads (`.date()` and `.hour`).
`open_` is the candle's open (`open` is a Lean keyword). -/
structure Bar where
  day : ℕ
  hour : ℕ
  open_ : ℚ
  high : ℚ
  low : ℚ
  close : ℚ
deriving Repr, DecidableEq

/-- Directional bias; the Python code uses the strings `'LONG'`/`'SHORT'`. -/
inductive Bias where
  | LONG
  | SHORT
deriving Repr, DecidableEq

/-- The constructor parameters of `TrendFollowingStrategy` that the
embedded methods read. -/
structure StratConfig where
  risk_per_trade : ℚ
  max_stop_loss_percent : ℚ
  trading_hours : ℕ × ℕ
  analysis_hours : ℕ × ℕ
  swing_lookback : ℕ
deriving Repr, DecidableEq

/-- The mutable state of a `TrendFollowingStrategy` instance. -/
structure StratState where
  bias : Bias
  mitigation_high : Option ℚ
  mitigation_low : Option ℚ
  mitigation_candle_idx : Option ℕ
  reference_high : Option ℚ
  reference_low : Option ℚ
  reference_high_idx : Option ℕ
  reference_low_idx : Option ℕ
  pending_swing_highs : List (ℚ × ℕ)
  pending_swing_lows : List (ℚ × ℕ)
  mitigation_tested : Bool
  ready_to_trade : Bool
  entry_candle_count : ℕ
  last_bias_change_idx : Option ℕ
  last_analysis_day : Option ℕ
deriving Repr, DecidableEq

/-- The state built by `TrendFollowingStrategy.__init__`. -/
def initState : StratState where
  bias := .LONG
  mitigation_high := none
  mitigation_low := none
  mitigation_candle_idx := none
  reference_high := none
  reference_low := none
  reference_high_idx := none
  reference_low_idx := none
  pending_swing_highs := []
  pending_swing_lows := []
  mitigation_tested := false
  ready_to_trade := false
  entry_candle_count := 0
  last_bias_change_idx := none
  last_analysis_day := none

/-- `reset_daily_state` (strategy.py:177): clears all day-scoped fields,
keeps `last_analysis_day`. -/
def reset_daily_state (s : StratState) : StratState where
  bias := .LONG
  mitigation_high := none
  mitigation_low := none
  mitigation_candle_idx := none
  reference_high := none
  reference_low := none
  reference_high_idx := none
  reference_low_idx := none
  pending_swing_highs := []
  pending_swing_lows := []
  mitigation_tested := false
  ready_to_trade := false
  entry_candle_count := 0
  last_bias_change_idx := none
  last_analysis_day := s.last_analysis_day

/-- `is_bullish_candle`: close strictly above open. -/
def is_bullish_candle (b : Bar) : Bool := b.open_ < b.close

/-- `is_bearish_candle`: close strictly below open. -/
def is_bearish_candle (b : Bar) : Bool := b.close < b.open_

/-- Python's `round` to an integer: round half to even. -/
def round_half_even (x : ℚ) : ℤ :=
  if Int.fract x < 1 / 2 then ⌊x⌋
  else if 1 / 2 < Int.fract x then ⌊x⌋ + 1
  else if ⌊x⌋ % 2 = 0 then ⌊x⌋ else ⌊x⌋ + 1

/-- Python's `round(x, 2)`. -/
def round2 (x : ℚ) : ℚ := (round_half_even (100 * x) : ℚ) / 100

/-- The two substring tests `calculate_position_size` performs on the
symbol string: `'XAU' in symbol or 'GOLD' in symbol.upper()`, and
`'JPY' in symbol`. -/
structure TradeSymbol where
  has_gold : Bool
  has_jpy : Bool
deriving Repr, DecidableEq

/-- The `"EURUSD"` symbol used by the backtest driver. -/
def eurusd : TradeSymbol := ⟨false, false⟩

/-- `get_sl_price` (strategy.py:700): mitigation boundary on the bias side. -/
def get_sl_price (s : StratState) : Option ℚ :=
  if s.bias = .LONG then s.mitigation_low else s.mitigation_high

/-- `calculate_position_size` (strategy.py:708): risk-based lot sizing with
a max-stop-loss clamp and a 0.01 minimum lot floor, in source order. -/
def calculate_position_size (cfg : StratConfig) (s : StratState)
    (balance entry_price : ℚ) (sym : TradeSymbol) : ℚ :=
  match get_sl_price s with
  | none => 0
  | some sl_price =>
    let sl_distance := |entry_price - sl_price|
    if sl_distance = 0 then 0
    else
      let risk_amount := balance * cfg.risk_per_trade
      if sym.has_gold then
        let dollar_value_per_lot : ℚ := 100
        let lot_size := round2 (risk_amount / (sl_distance * dollar_value_per_lot))
        let max_sl_amount := balance * cfg.max_stop_loss_percent
        let potential_loss := lot_size * sl_distance * dollar_value_per_lot
        let lot_size :=
          if max_sl_amount < potential_loss then
            round2 (max_sl_amount / (sl_distance * dollar_value_per_lot))
          else lot_size
        if lot_size < 1 / 100 then 1 / 100 else lot_size
      else
        let pip_size : ℚ := if sym.has_jpy then 1 / 100 else 1 / 10000
        let pip_value_per_lot : ℚ := 10
        let sl_pips := sl_distance / pip_size
        let lot_size := round2 (risk_amount / (sl_pips * pip_value_per_lot))
        let max_sl_amount := balance * cfg.max_stop_loss_percent
        let potential_loss := lot_size * sl_pips * pip_value_per_lot
        let lot_size :=
          if max_sl_amount < potential_loss then
            round2 (max_sl_amount / (sl_pips * pip_value_per_lot))
          else lot_size
        if lot_size < 1 / 100 then 1 / 100 else lot_size

/-- The constructor-default configuration of `TrendFollowingStrategy`
(risk 0.01%, max stop loss 3.5%, hours (13,20)/(12,13), lookback 2). -/
def defaultCfg : StratConfig where
  risk_per_trade := 1 / 10000
  max_stop_loss_percent := 7 / 200
  trading_hours := (13, 20)
  analysis_hours := (12, 13)
  swing_lookback := 2

/-- A strategy state with LONG bias and a set mitigation zone, as produced
after a mitigation assignment; used to drive `calculate_position_size`. -/
def stateLong (ml mh : ℚ) : StratState :=
  { bias := .LONG
    mitigation_high := some mh
    mitigation_low := some ml
    mitigation_candle_idx := some 0
    reference_high := none
    reference_low := none
    reference_high_idx := none
    reference_low_idx := none
    pending_swing_highs := []
    pending_swing_lows := []
    mitigation_tested := false
    ready_to_trade := false
    entry_candle_count := 0
    last_bias_change_idx := none
    last_analysis_day := none }

/-- `is_swing_high` (strategy.py:107), with the instance field
`swing_lookback` and `len(df)` as explicit parameters `lookback`, `n`.
Returns false without full left/right context; otherwise true iff every
high in the windows is strictly below the center high. -/
def is_swing_high (lookback : ℕ) (df : ℕ → Bar) (n idx : ℕ) : Bool :=
  if idx < lookback ∨ n ≤ idx + lookback then false
  else
    ((List.range' (idx - lookback) lookback).all fun i =>
        decide ((df i).high < (df idx).high)) &&
    ((List.range' (idx + 1) lookback).all fun i =>
        decide ((df i).high < (df idx).high))

/-- `is_swing_low` (strategy.py:130), symmetric to `is_swing_high`. -/
def is_swing_low (lookback : ℕ) (df : ℕ → Bar) (n idx : ℕ) : Bool :=
  if idx < lookback ∨ n ≤ idx + lookback then false
  else
    ((List.range' (idx - lookback) lookback).all fun i =>
        decide ((df idx).low < (df i).low)) &&
    ((List.range' (idx + 1) lookback).all fun i =>
        decide ((df idx).low < (df i).low))

/-- `find_last_counter_candle_before_index` (strategy.py:153): scan
indices `before_idx-1` down to `max 0 (before_idx-100)` for the first
bearish (`red = true`) or bullish (`red = false`) candle. -/
def find_last_counter_candle_before_index (df : ℕ → Bar) (before_idx : ℕ)
    (red : Bool) : Option (Bar × ℕ) :=
  (((List.range (min before_idx 100)).map fun k => before_idx - 1 - k).find? fun i =>
      if red then is_bearish_candle (df i) else is_bullish_candle (df i)).map
    fun i => (df i, i)

/-- `update_mitigation_for_new_high` (strategy.py:550): set the
mitigation zone from the last red candle scanned back from the new
reference high (the scan starts at the high candle itself: `high_idx+1`
exclusive); leave state unchanged when none exists. -/
def update_mitigation_for_new_high (df : ℕ → Bar) (high_idx : ℕ)
    (s : StratState) : StratState :=
  match find_last_counter_candle_before_index df (high_idx + 1) true with
  | some (c, i) =>
    { s with
        mitigation_high := some c.high
        mitigation_low := some c.low
        mitigation_candle_idx := some i }
  | none => s

/-- `update_mitigation_for_new_low` (strategy.py:562), symmetric. -/
def update_mitigation_for_new_low (df : ℕ → Bar) (low_idx : ℕ)
    (s : StratState) : StratState :=
  match find_last_counter_candle_before_index df (low_idx + 1) false with
  | some (c, i) =>
    { s with
        mitigation_high := some c.high
        mitigation_low := some c.low
        mitigation_candle_idx := some i }
  | none => s

/-- `check_bias_change` (strategy.py:574).  Returns the new state and the
`changed` flag.  NOTE: in the source the readiness reset
(`ready_to_trade`, `mitigation_tested`, `entry_candle_count`,
`last_bias_change_idx`) appears only inside the SHORT→LONG branch. -/
def check_bias_change (cfg : StratConfig) (df : ℕ → Bar) (current_idx : ℕ)
    (s : StratState) : StratState × Bool :=
  let candle := df current_idx
  match s.mitigation_high, s.mitigation_low with
  | some mh, some ml =>
    if ¬ (cfg.analysis_hours.1 ≤ candle.hour ∧ candle.hour < cfg.trading_hours.2) then
      (s, false)
    else if s.bias = .LONG then
      if candle.close < ml then
        let s1 := { s with bias := Bias.SHORT }
        match find_last_counter_candle_before_index df current_idx false with
        | some (c, i) =>
          ({ s1 with
              mitigation_high := some c.high
              mitigation_low := some c.low
              mitigation_candle_idx := some i }, true)
        | none =>
          ({ s1 with
              mitigation_high := some candle.high
              mitigation_low := some candle.low
              mitigation_candle_idx := some current_idx }, true)
      else (s, false)
    else
      if mh < candle.close then
        let s1 := { s with bias := Bias.LONG }
        let s2 :=
          match find_last_counter_candle_before_index df current_idx true with
          | some (c, i) =>
            { s1 with
                mitigation_high := some c.high
                mitigation_low := some c.low
                mitigation_candle_idx := some i }
          | none =>
            { s1 with
                mitigation_high := some candle.high
                mitigation_low := some candle.low
                mitigation_candle_idx := some current_idx }
        ({ s2 with
            ready_to_trade := false
            mitigation_tested := false
            entry_candle_count := 0
            last_bias_change_idx := some current_idx }, true)
      else (s, false)
  | _, _ => (s, false)

/-- `check_mitigation_test` (strategy.py:647): one-shot latch set when
price re-enters the mitigation zone. -/
def check_mitigation_test (s : StratState) (candle : Bar) : StratState :=
  match s.mitigation_high, s.mitigation_low with
  | some mh, some ml =>
    if s.mitigation_tested then s
    else if s.bias = .LONG then
      if candle.low ≤ mh then { s with mitigation_tested := true } else s
    else
      if ml ≤ candle.high then { s with mitigation_tested := true } else s
  | _, _ => s

/-- `is_analysis_period` (strategy.py:195). -/
def is_analysis_period (cfg : StratConfig) (hour : ℕ) : Bool :=
  decide (cfg.analysis_hours.1 ≤ hour) && decide (hour < cfg.analysis_hours.2)

/-- `check_daily_reset` (strategy.py:452): reset once per calendar day on
the first bar inside the analysis window; returns the `True`/`False`
result alongside the state. -/
def check_daily_reset (cfg : StratConfig) (candle : Bar) (s : StratState) :
    StratState × Bool :=
  if s.last_analysis_day ≠ some candle.day ∧ is_analysis_period cfg candle.hour = true then
    ({ reset_daily_state s with last_analysis_day := some candle.day }, true)
  else (s, false)

/-- Python's `max(lst, key=lambda x: x[0])` on a possibly empty list:
the first element with maximal first component. -/
def py_max_by_fst (l : List (ℚ × ℕ)) : Option (ℚ × ℕ) :=
  match l with
  | [] => none
  | x :: xs => some (xs.foldl (fun acc y => if acc.1 < y.1 then y else acc) x)

/-- Python's `min(lst, key=lambda x: x[0])` on a possibly empty list:
the first element with minimal first component. -/
def py_min_by_fst (l : List (ℚ × ℕ)) : Option (ℚ × ℕ) :=
  match l with
  | [] => none
  | x :: xs => some (xs.foldl (fun acc y => if y.1 < acc.1 then y else acc) x)

/-- `update_swing_levels` (strategy.py:483): initialize the reference
high from pending swing highs when it is still unset. -/
def usl_init_high (s : StratState) : StratState :=
  match s.reference_high, py_max_by_fst s.pending_swing_highs with
  | none, some hs =>
    { s with reference_high := some hs.1, reference_high_idx := some hs.2 }
  | _, _ => s

/-- `update_swing_levels` (strategy.py:488): initialize the reference
low from pending swing lows when it is still unset. -/
def usl_init_low (s : StratState) : StratState :=
  match s.reference_low, py_min_by_fst s.pending_swing_lows with
  | none, some ls =>
    { s with reference_low := some ls.1, reference_low_idx := some ls.2 }
  | _, _ => s

/-- `update_swing_levels` (strategy.py:494): detect a swing high at
`current_idx - swing_lookback` and add it to pending (dedup by index). -/
def usl_detect_high (cfg : StratConfig) (df : ℕ → Bar) (n current_idx : ℕ)
    (s : StratState) : StratState :=
  if cfg.swing_lookback + 2 ≤ current_idx then
    if is_swing_high cfg.swing_lookback df n (current_idx - cfg.swing_lookback) then
      if (s.pending_swing_highs.any fun p =>
          decide (p.2 = current_idx - cfg.swing_lookback)) then s
      else
        { s with pending_swing_highs := s.pending_swing_highs ++
            [((df (current_idx - cfg.swing_lookback)).high,
              current_idx - cfg.swing_lookback)] }
    else s
  else s

/-- `update_swing_levels` (strategy.py:503): detect a swing low. -/
def usl_detect_low (cfg : StratConfig) (df : ℕ → Bar) (n current_idx : ℕ)
    (s : StratState) : StratState :=
  if cfg.swing_lookback + 2 ≤ current_idx then
    if is_swing_low cfg.swing_lookback df n (current_idx - cfg.swing_lookback) then
      if (s.pending_swing_lows.any fun p =>
          decide (p.2 = current_idx - cfg.swing_lookback)) then s
      else
        { s with pending_swing_lows := s.pending_swing_lows ++
            [((df (current_idx - cfg.swing_lookback)).low,
              current_idx - cfg.swing_lookback)] }
    else s
  else s

/-- `update_swing_levels` (strategy.py:512): realize the highest pending
swing high into the reference high on a strict break below the reference
low; under LONG bias also reassign mitigation. -/
def usl_confirm_high (df : ℕ → Bar) (candle : Bar) (s : StratState) : StratState :=
  match s.reference_low, py_max_by_fst s.pending_swing_highs with
  | some rl, some hs =>
    if candle.low < rl then
      let s1 := { s with
          reference_high := some hs.1
          reference_high_idx := some hs.2
          pending_swing_highs := [] }
      if s1.bias = .LONG then update_mitigation_for_new_high df hs.2 s1 else s1
    else s
  | _, _ => s

/-- `update_swing_levels` (strategy.py:531): realize the lowest pending
swing low into the reference low on a strict break above the reference
high; under SHORT bias also reassign mitigation. -/
def usl_confirm_low (df : ℕ → Bar) (candle : Bar) (s : StratState) : StratState :=
  match s.reference_high, py_min_by_fst s.pending_swing_lows with
  | some rh, some ls =>
    if rh < candle.high then
      let s1 := { s with
          reference_low := some ls.1
          reference_low_idx := some ls.2
          pending_swing_lows := [] }
      if s1.bias = .SHORT then update_mitigation_for_new_low df ls.2 s1 else s1
    else s
  | _, _ => s

/-- `update_swing_levels` (strategy.py:468): hour-gated composition of
the phases in source order. -/
def update_swing_levels (cfg : StratConfig) (df : ℕ → Bar) (n current_idx : ℕ)
    (s : StratState) : StratState :=
  let candle := df current_idx
  if cfg.analysis_hours.1 ≤ candle.hour ∧ candle.hour < cfg.trading_hours.2 then
    usl_confirm_low df candle (usl_confirm_high df candle
      (usl_detect_low cfg df n current_idx (usl_detect_high cfg df n current_idx
        (usl_init_low (usl_init_high s)))))
  else s

/-- `get_tp_pips_for_entry_candle` (strategy.py:678). -/
def get_tp_pips_for_entry_candle (s : StratState) : ℕ :=
  if s.entry_candle_count = 0 then 25
  else if s.entry_candle_count = 1 then 20
  else if s.entry_candle_count = 2 then 15
  else 15

/-- The strategy-state evolution of one iteration of the
`generate_signals` loop (strategy.py:780): daily-reset check, swing
update, bias-change check.  Signal recording does not mutate state. -/
def generate_signals_step (cfg : StratConfig) (df : ℕ → Bar) (n i : ℕ)
    (s : StratState) : StratState :=
  let s1 := (check_daily_reset cfg (df i) s).1
  let s2 := update_swing_levels cfg df n i s1
  (check_bias_change cfg df i s2).1

/-- The strategy-state evolution of one iteration of the backtest driver
loop (backtest_all_months.py:72): daily reset (the driver calls
`reset_daily_state` again when `check_daily_reset` returned true), swing
update, bias change, mitigation test, and the `ready_to_trade`-guarded
increment of `entry_candle_count`.  The backtester object never mutates
the strategy. -/
def driver_tail (cfg : StratConfig) (df : ℕ → Bar) (n i : ℕ)
    (s1 : StratState) : StratState :=
  let s2 := update_swing_levels cfg df n i s1
  let s3 := (check_bias_change cfg df i s2).1
  let s4 := check_mitigation_test s3 (df i)
  if s4.ready_to_trade then { s4 with entry_candle_count := s4.entry_candle_count + 1 }
  else s4

/-- The full per-bar strategy-state evolution: the daily-reset step
followed by `driver_tail`. -/
def driver_bar_update (cfg : StratConfig) (df : ℕ → Bar) (n i : ℕ)
    (s : StratState) : StratState :=
  let p := check_daily_reset cfg (df i) s
  driver_tail cfg df n i (if p.2 then reset_daily_state p.1 else p.1)

/-- A five-bar sequence whose middle bar (index 2) is a swing high and a
swing low never is: highs 1,2,5,3,1 and lows 5,4,1,2,5 around it. -/
def dfW : ℕ → Bar := fun i =>
  if i = 0 then ⟨0, 12, 1, 1, 5, 1⟩
  else if i = 1 then ⟨0, 12, 2, 2, 4, 2⟩
  else if i = 2 then ⟨0, 12, 5, 5, 1, 5⟩
  else if i = 3 then ⟨0, 12, 3, 3, 2, 3⟩
  else ⟨0, 12, 1, 1, 5, 1⟩

/-- An all-doji bar sequence: every candle has open = close, so it is
neither bearish nor bullish. -/
def dojiDf : ℕ → Bar := fun _ => ⟨0, 12, 1, 1, 1, 1⟩

/-- A bar at 03:00 (outside the analysis/trading window) whose close 0.5
is strictly below the mitigation low used in the tests. -/
def nightDf : ℕ → Bar := fun _ => ⟨1, 3, 3/4, 3, 0, 1/2⟩

/-- A bar at 13:00 (inside trading hours) whose close 0.5 is strictly
below the mitigation low used in the tests. -/
def flipDf : ℕ → Bar := fun _ => ⟨1, 13, 1/4, 3, 0, 1/2⟩

/-- A LONG state with mitigation zone [1, 2] in which all readiness
flags are armed: `ready_to_trade = true`, `mitigation_tested = true`,
`entry_candle_count = 3`. -/
def c2state : StratState :=
  { stateLong 1 2 with
      ready_to_trade := true
      mitigation_tested := true
      entry_candle_count := 3 }

/-- A state with both reference levels set (high 5, low 3) and a set
mitigation zone [1, 2], bias LONG. -/
def refState : StratState :=
  { stateLong 1 2 with
      reference_high := some 5
      reference_low := some 3 }

/-- OHLC validity of a bar: the low is below open and close, the high
above them. -/
def ValidBar (b : Bar) : Prop :=
  b.low ≤ b.open_ ∧ b.low ≤ b.close ∧ b.open_ ≤ b.high ∧ b.close ≤ b.high

/-- The C10 invariant: the mitigation bounds are both unset or both set,
and when set they are ordered (`mitigation_low ≤ mitigation_high`). -/
def mitigationPaired (s : StratState) : Prop :=
  (s.mitigation_high = none ∧ s.mitigation_low = none) ∨
  ∃ h l, s.mitigation_high = some h ∧ s.mitigation_low = some l ∧ l ≤ h

/-- An OHLC-invalid bar at 13:00: its high 1 lies strictly below its open
3 (`high < max(open, close)`), and it closes at 0. -/
def invalidDf : ℕ → Bar := fun _ => ⟨1, 13, 3, 1, 0, 0⟩

/-- A LONG state with mitigation zone [1, 2] whose `last_analysis_day`
already equals the processed bar's day (so no daily reset interferes). -/
def c3state : StratState :=
  { stateLong 1 2 with last_analysis_day := some 1 }

theorem abs_round_half_even_sub_le (x : ℚ) : |(round_half_even x : ℚ) - x| ≤ 1 / 2 := by
  have hfr : (⌊x⌋ : ℚ) = x - Int.fract x := by
    rw [Int.fract]; ring
  have h0 : 0 ≤ Int.fract x := Int.fract_nonneg x
  have h1 : Int.fract x < 1 := Int.fract_lt_one x
  unfold round_half_even
  split_ifs with hlt hgt hev
  · rw [abs_le]
    constructor <;> [skip; skip] <;> rw [hfr] <;> linarith
  · push_cast
    rw [abs_le]
    constructor <;> rw [hfr] <;> linarith
  · rw [abs_le]
    have : Int.fract x = 1 / 2 := le_antisymm (not_lt.mp hgt) (not_lt.mp hlt)
    constructor <;> rw [hfr, this] <;> linarith
  · push_cast
    rw [abs_le]
    have : Int.fract x = 1 / 2 := le_antisymm (not_lt.mp hgt) (not_lt.mp hlt)
    constructor <;> rw [hfr, this] <;> linarith

theorem round_half_even_nonneg (x : ℚ) (hx : 0 ≤ x) : 0 ≤ round_half_even x := by
  have h := Int.floor_nonneg.mpr hx
  unfold round_half_even
  split_ifs <;> omega

theorem round2_le (x : ℚ) : round2 x ≤ x + 1 / 200 := by
  have h := abs_round_half_even_sub_le (100 * x)
  rw [abs_le] at h
  unfold round2
  nlinarith [h.1, h.2]

theorem round2_ge (x : ℚ) : x - 1 / 200 ≤ round2 x := by
  have h := abs_round_half_even_sub_le (100 * x)
  rw [abs_le] at h
  unfold round2
  nlinarith [h.1, h.2]

/-- Reduction of `calculate_position_size` to the forex branch when the
stop price is defined, the stop distance is nonzero and the symbol is not
a gold symbol. -/
theorem calculate_position_size_forex (cfg : StratConfig) (s : StratState)
    (balance entry_price : ℚ) (sym : TradeSymbol) (sl_price : ℚ)
    (hg : sym.has_gold = false)
    (hsl : get_sl_price s = some sl_price)
    (hne : ¬ (|entry_price - sl_price| = 0)) :
    calculate_position_size cfg s balance entry_price sym =
      (let pip_size : ℚ := if sym.has_jpy then 1 / 100 else 1 / 10000
       let sl_pips := |entry_price - sl_price| / pip_size
       let lot0 := round2 (balance * cfg.risk_per_trade / (sl_pips * 10))
       let lot1 :=
         if balance * cfg.max_stop_loss_percent < lot0 * sl_pips * 10 then
           round2 (balance * cfg.max_stop_loss_percent / (sl_pips * 10))
         else lot0
       if lot1 < 1 / 100 then 1 / 100 else lot1) := by
  rw [calculate_position_size, hsl]
  simp only [hg, if_neg hne, Bool.false_eq_true, if_false]

/-- Reduction of `calculate_position_size` in the case where the
max-stop-loss clamp is not triggered. -/
theorem calculate_position_size_forex_no_cap (cfg : StratConfig) (s : StratState)
    (balance entry_price : ℚ) (sym : TradeSymbol) (sl_price pip_size : ℚ)
    (hg : sym.has_gold = false)
    (hsl : get_sl_price s = some sl_price)
    (hne : ¬ (|entry_price - sl_price| = 0))
    (hp : pip_size = if sym.has_jpy then 1 / 100 else 1 / 10000)
    (hcap : ¬ (balance * cfg.max_stop_loss_percent <
        round2 (balance * cfg.risk_per_trade / (|entry_price - sl_price| / pip_size * 10)) *
          (|entry_price - sl_price| / pip_size) * 10)) :
    calculate_position_size cfg s balance entry_price sym =
      (if round2 (balance * cfg.risk_per_trade /
            (|entry_price - sl_price| / pip_size * 10)) < 1 / 100 then (1 : ℚ) / 100
       else round2 (balance * cfg.risk_per_trade /
            (|entry_price - sl_price| / pip_size * 10))) := by
  subst hp
  rw [calculate_position_size_forex cfg s balance entry_price sym sl_price hg hsl hne]
  simp only []
  rw [if_neg hcap]

/-- C1 counterexample: with the constructor-default configuration
(risk 0.01%, max stop loss 3.5%), balance 100, entry 1.11 and stop 1.10
(100 pips), the nominal lot rounds to 0 and the 0.01 minimum-lot floor is
applied AFTER the max-stop-loss clamp, so the returned 0.01 lots risk
0.01 × 100 × 10 = 10 dollars, exceeding the cap 100 × 3.5% = 3.5. -/
theorem c1_min_lot_floor_breaks_cap_cex :
    calculate_position_size defaultCfg (stateLong (11/10) (111/100)) 100 (111/100) eurusd
        = 1 / 100 ∧
    ¬ (calculate_position_size defaultCfg (stateLong (11/10) (111/100)) 100 (111/100) eurusd *
        (|(111 : ℚ)/100 - 11/10| / (1/10000)) * 10 ≤ 100 * defaultCfg.max_stop_loss_percent) := by
  have hr0 : round2 (100 * defaultCfg.risk_per_trade /
      (|(111 : ℚ)/100 - 11/10| / (1/10000) * 10)) = 0 := by
    rw [show (100 : ℚ) * defaultCfg.risk_per_trade /
        (|(111 : ℚ)/100 - 11/10| / (1/10000) * 10) = 1/100000 from by
      rw [show |(111 : ℚ)/100 - 11/10| = 1/100 from by norm_num]
      norm_num [defaultCfg]]
    norm_num [round2, round_half_even, Int.fract]
  have hcps : calculate_position_size defaultCfg (stateLong (11/10) (111/100))
      100 (111/100) eurusd = 1 / 100 := by
    rw [calculate_position_size_forex_no_cap defaultCfg (stateLong (11/10) (111/100))
      100 (111/100) eurusd (11/10) (1/10000) rfl
      (by norm_num [stateLong, get_sl_price])
      (by norm_num)
      (by norm_num [eurusd])
      (by rw [hr0]; norm_num [defaultCfg])]
    rw [hr0]
    norm_num
  refine ⟨hcps, ?_⟩
  rw [hcps, show |(111 : ℚ)/100 - 11/10| = 1/100 from by norm_num]
  norm_num [defaultCfg]

/-- C1 amended: for every defined stop with nonzero distance (forex
branch), the returned lots can exceed the nominal max-stop-loss cap only
by the final 0.01-lot rounding half-step or the 0.01 minimum-lot floor:
`lots × slPips × 10 ≤ max (balance × maxSL + slPips × 10 / 200)
(slPips × 10 / 100)`. -/
theorem c1_cap_up_to_rounding_and_floor (cfg : StratConfig) (s : StratState)
    (balance entry_price sl_price pip_size sl_pips : ℚ) (sym : TradeSymbol)
    (hg : sym.has_gold = false)
    (_hb : 0 < balance)
    (_hmsl : 0 ≤ cfg.max_stop_loss_percent)
    (hsl : get_sl_price s = some sl_price)
    (hne : entry_price ≠ sl_price)
    (hp : pip_size = if sym.has_jpy then 1 / 100 else 1 / 10000)
    (hpips : sl_pips = |entry_price - sl_price| / pip_size) :
    calculate_position_size cfg s balance entry_price sym * sl_pips * 10 ≤
      max (balance * cfg.max_stop_loss_percent + sl_pips * 10 / 200)
        (sl_pips * 10 / 100) := by
  have hD : 0 < |entry_price - sl_price| := abs_pos.mpr (sub_ne_zero.mpr hne)
  have hps : 0 < pip_size := by rw [hp]; split_ifs <;> norm_num
  have hsp : 0 < sl_pips := by rw [hpips]; positivity
  have hP : 0 < sl_pips * 10 := by positivity
  have hne' : ¬ (|entry_price - sl_price| = 0) := ne_of_gt hD
  rw [calculate_position_size_forex cfg s balance entry_price sym sl_price hg hsl hne']
  simp only []
  rw [← hp, ← hpips]
  split_ifs with hcap hfl hfl
  · calc (1 : ℚ) / 100 * sl_pips * 10 = sl_pips * 10 / 100 := by ring
    _ ≤ _ := le_max_right _ _
  · have h1 : round2 (balance * cfg.max_stop_loss_percent / (sl_pips * 10)) ≤
        balance * cfg.max_stop_loss_percent / (sl_pips * 10) + 1 / 200 := round2_le _
    have h2 : balance * cfg.max_stop_loss_percent / (sl_pips * 10) * (sl_pips * 10) =
        balance * cfg.max_stop_loss_percent := div_mul_cancel₀ _ (ne_of_gt hP)
    have h3 := mul_le_mul_of_nonneg_right h1 (le_of_lt hP)
    calc round2 (balance * cfg.max_stop_loss_percent / (sl_pips * 10)) * sl_pips * 10
        = round2 (balance * cfg.max_stop_loss_percent / (sl_pips * 10)) * (sl_pips * 10) := by
          ring
    _ ≤ (balance * cfg.max_stop_loss_percent / (sl_pips * 10) + 1 / 200) * (sl_pips * 10) := h3
    _ = balance * cfg.max_stop_loss_percent + sl_pips * 10 / 200 := by
          rw [add_mul, h2]; ring
    _ ≤ _ := le_max_left _ _
  · calc (1 : ℚ) / 100 * sl_pips * 10 = sl_pips * 10 / 100 := by ring
    _ ≤ _ := le_max_right _ _
  · push_neg at hcap
    calc round2 (balance * cfg.risk_per_trade / (sl_pips * 10)) * sl_pips * 10 ≤
        balance * cfg.max_stop_loss_percent := hcap
    _ ≤ balance * cfg.max_stop_loss_percent + sl_pips * 10 / 200 := by linarith
    _ ≤ _ := le_max_left _ _

/-- Witness for `c1_cap_up_to_rounding_and_floor`: balance 10000, entry
1.11, stop 1.10, EURUSD, default configuration. -/
theorem c1_cap_up_to_rounding_and_floor_witness :
    calculate_position_size defaultCfg (stateLong (11/10) (111/100)) 10000 (111/100) eurusd *
        100 * 10 ≤
      max (10000 * defaultCfg.max_stop_loss_percent + 100 * 10 / 200) (100 * 10 / 100) :=
  c1_cap_up_to_rounding_and_floor defaultCfg (stateLong (11/10) (111/100))
    10000 (111/100) (11/10) (1/10000) 100 eurusd rfl (by norm_num)
    (by norm_num [defaultCfg]) (by norm_num [stateLong, get_sl_price]) (by norm_num)
    (by norm_num [eurusd])
    (by rw [show |(111 : ℚ)/100 - 11/10| = 1/100 from by norm_num]; norm_num)

/-- After the minimum-lot floor, rounding a doubled raw lot differs from
doubling the rounded raw lot by at most one 0.01-lot granule. -/
theorem round2_double_floor_bound (x : ℚ) (hx : 0 ≤ x) :
    |(if round2 (2 * x) < 1 / 100 then (1 : ℚ) / 100 else round2 (2 * x)) -
      2 * (if round2 x < 1 / 100 then (1 : ℚ) / 100 else round2 x)| ≤ 1 / 100 := by
  simp only [round2]
  set a := round_half_even (100 * x) with hA
  set b := round_half_even (100 * (2 * x)) with hB
  have ha0 : 0 ≤ a := round_half_even_nonneg _ (by positivity)
  have hb0 : 0 ≤ b := round_half_even_nonneg _ (by positivity)
  have h1 : |(a : ℚ) - 100 * x| ≤ 1 / 2 := abs_round_half_even_sub_le _
  have h2 : |(b : ℚ) - 100 * (2 * x)| ≤ 1 / 2 := abs_round_half_even_sub_le _
  rw [abs_le] at h1 h2
  have h3 : |(b : ℚ) - 2 * a| ≤ 3 / 2 := by
    rw [abs_le]; constructor <;> linarith [h1.1, h1.2, h2.1, h2.2]
  have h4 : |b - 2 * a| ≤ 1 := by
    by_contra hc
    push_neg at hc
    have h5 : (2 : ℤ) ≤ |b - 2 * a| := hc
    have h6 : ((2 : ℤ) : ℚ) ≤ ((|b - 2 * a| : ℤ) : ℚ) := by exact_mod_cast h5
    rw [Int.cast_abs] at h6
    push_cast at h6
    linarith [h3]
  have hifa : (if (a : ℚ) / 100 < 1 / 100 then (1 : ℚ) / 100 else (a : ℚ) / 100) =
      ((max 1 a : ℤ) : ℚ) / 100 := by
    rcases le_or_lt 1 a with h | h
    · rw [max_eq_right h, if_neg]
      push_neg
      have : (1 : ℚ) ≤ (a : ℚ) := by exact_mod_cast h
      linarith
    · rw [max_eq_left (le_of_lt h), if_pos]
      · norm_num
      · have : (a : ℚ) < 1 := by exact_mod_cast h
        linarith
  have hifb : (if (b : ℚ) / 100 < 1 / 100 then (1 : ℚ) / 100 else (b : ℚ) / 100) =
      ((max 1 b : ℤ) : ℚ) / 100 := by
    rcases le_or_lt 1 b with h | h
    · rw [max_eq_right h, if_neg]
      push_neg
      have : (1 : ℚ) ≤ (b : ℚ) := by exact_mod_cast h
      linarith
    · rw [max_eq_left (le_of_lt h), if_pos]
      · norm_num
      · have : (b : ℚ) < 1 := by exact_mod_cast h
        linarith
  rw [hifa, hifb]
  have hmax : |max 1 b - 2 * max 1 a| ≤ 1 := by
    rw [abs_le] at h4 ⊢
    omega
  have hcast : ((max 1 b : ℤ) : ℚ) / 100 - 2 * (((max 1 a : ℤ) : ℚ) / 100) =
      ((max 1 b - 2 * max 1 a : ℤ) : ℚ) / 100 := by
    push_cast
    ring
  rw [hcast, abs_div]
  rw [show |(100 : ℚ)| = 100 from by norm_num]
  rw [div_le_div_iff₀ (by norm_num) (by norm_num)]
  have : |((max 1 b - 2 * max 1 a : ℤ) : ℚ)| ≤ 1 := by
    rw [← Int.cast_abs]
    exact_mod_cast hmax
  linarith

/-- C9 counterexample: with balance 10000, entry 1.11, stop 1.10 and no
cap hit, risk 0.14% gives 0.01 lots (raw 0.014 rounds down) while the
doubled risk 0.28% gives 0.03 lots (raw 0.028 rounds up), which is not
double 0.01. -/
theorem c9_doubling_cex :
    calculate_position_size { defaultCfg with risk_per_trade := 7 / 2500 }
        (stateLong (11/10) (111/100)) 10000 (111/100) eurusd = 3 / 100 ∧
    calculate_position_size { defaultCfg with risk_per_trade := 7 / 5000 }
        (stateLong (11/10) (111/100)) 10000 (111/100) eurusd = 1 / 100 ∧
    (3 : ℚ) / 100 ≠ 2 * (1 / 100) := by
  have habs : |(111 : ℚ)/100 - 11/10| = 1/100 := by norm_num
  have hr1 : round2 (10000 * ({ defaultCfg with risk_per_trade := 7 / 5000 } : StratConfig).risk_per_trade /
      (|(111 : ℚ)/100 - 11/10| / (1/10000) * 10)) = 1 / 100 := by
    rw [show (10000 : ℚ) * ({ defaultCfg with risk_per_trade := 7 / 5000 } : StratConfig).risk_per_trade /
        (|(111 : ℚ)/100 - 11/10| / (1/10000) * 10) = 7/500 from by rw [habs]; norm_num [defaultCfg]]
    norm_num [round2, round_half_even, Int.fract]
  have hr2 : round2 (10000 * ({ defaultCfg with risk_per_trade := 7 / 2500 } : StratConfig).risk_per_trade /
      (|(111 : ℚ)/100 - 11/10| / (1/10000) * 10)) = 3 / 100 := by
    rw [show (10000 : ℚ) * ({ defaultCfg with risk_per_trade := 7 / 2500 } : StratConfig).risk_per_trade /
        (|(111 : ℚ)/100 - 11/10| / (1/10000) * 10) = 7/250 from by rw [habs]; norm_num [defaultCfg]]
    norm_num [round2, round_half_even, Int.fract]
  refine ⟨?_, ?_, by norm_num⟩
  · rw [calculate_position_size_forex_no_cap { defaultCfg with risk_per_trade := 7 / 2500 }
      (stateLong (11/10) (111/100)) 10000 (111/100) eurusd (11/10) (1/10000) rfl
      (by norm_num [stateLong, get_sl_price]) (by norm_num) (by norm_num [eurusd])
      (by rw [hr2, habs]; norm_num [defaultCfg])]
    rw [hr2]
    norm_num
  · rw [calculate_position_size_forex_no_cap { defaultCfg with risk_per_trade := 7 / 5000 }
      (stateLong (11/10) (111/100)) 10000 (111/100) eurusd (11/10) (1/10000) rfl
      (by norm_num [stateLong, get_sl_price]) (by norm_num) (by norm_num [eurusd])
      (by rw [hr1, habs]; norm_num [defaultCfg])]
    rw [hr1]
    norm_num

/-- C9 amended: doubling `risk_per_trade` (all else equal, the
max-stop-loss clamp not triggered for either risk) doubles the returned
lot size up to one 0.01-lot rounding granule:
`|lots(2r) − 2·lots(r)| ≤ 0.01` (exact doubling can fail by one granule
because rounding happens before doubling, see the counterexample). -/
theorem c9_doubling_up_to_granule (cfg : StratConfig) (s : StratState)
    (balance entry_price sl_price pip_size : ℚ) (sym : TradeSymbol)
    (hg : sym.has_gold = false)
    (hb : 0 < balance) (hr : 0 ≤ cfg.risk_per_trade)
    (hsl : get_sl_price s = some sl_price)
    (hne : entry_price ≠ sl_price)
    (hp : pip_size = if sym.has_jpy then 1 / 100 else 1 / 10000)
    (hcap1 : ¬ (balance * cfg.max_stop_loss_percent <
        round2 (balance * cfg.risk_per_trade / (|entry_price - sl_price| / pip_size * 10)) *
          (|entry_price - sl_price| / pip_size) * 10))
    (hcap2 : ¬ (balance * cfg.max_stop_loss_percent <
        round2 (balance * (2 * cfg.risk_per_trade) / (|entry_price - sl_price| / pip_size * 10)) *
          (|entry_price - sl_price| / pip_size) * 10)) :
    |calculate_position_size { cfg with risk_per_trade := 2 * cfg.risk_per_trade } s
        balance entry_price sym -
      2 * calculate_position_size cfg s balance entry_price sym| ≤ 1 / 100 := by
  have hD : 0 < |entry_price - sl_price| := abs_pos.mpr (sub_ne_zero.mpr hne)
  have hps : 0 < pip_size := by rw [hp]; split_ifs <;> norm_num
  have hne' : ¬ (|entry_price - sl_price| = 0) := ne_of_gt hD
  rw [calculate_position_size_forex_no_cap cfg s balance entry_price sym sl_price pip_size
    hg hsl hne' hp hcap1]
  rw [calculate_position_size_forex_no_cap { cfg with risk_per_trade := 2 * cfg.risk_per_trade }
    s balance entry_price sym sl_price pip_size hg hsl hne' hp hcap2]
  have hproj : ({ cfg with risk_per_trade := 2 * cfg.risk_per_trade } : StratConfig).risk_per_trade
      = 2 * cfg.risk_per_trade := rfl
  rw [hproj]
  rw [show balance * (2 * cfg.risk_per_trade) / (|entry_price - sl_price| / pip_size * 10) =
      2 * (balance * cfg.risk_per_trade / (|entry_price - sl_price| / pip_size * 10)) from by
    ring]
  exact round2_double_floor_bound _
    (div_nonneg (mul_nonneg (le_of_lt hb) hr)
      (mul_nonneg (div_nonneg (abs_nonneg _) (le_of_lt hps)) (by norm_num)))

/-- Witness for `c9_doubling_up_to_granule`: default configuration,
balance 10000, entry 1.11, stop 1.10, EURUSD. -/
theorem c9_doubling_up_to_granule_witness :
    |calculate_position_size { defaultCfg with risk_per_trade := 2 * defaultCfg.risk_per_trade }
        (stateLong (11/10) (111/100)) 10000 (111/100) eurusd -
      2 * calculate_position_size defaultCfg (stateLong (11/10) (111/100))
        10000 (111/100) eurusd| ≤ 1 / 100 :=
  c9_doubling_up_to_granule defaultCfg (stateLong (11/10) (111/100)) 10000 (111/100)
    (11/10) (1/10000) eurusd rfl (by norm_num) (by norm_num [defaultCfg])
    (by norm_num [stateLong, get_sl_price]) (by norm_num) (by norm_num [eurusd])
    (by
      rw [show (10000 : ℚ) * defaultCfg.risk_per_trade /
          (|(111 : ℚ)/100 - 11/10| / (1/10000) * 10) = 1/1000 from by
        rw [show |(111 : ℚ)/100 - 11/10| = 1/100 from by norm_num]
        norm_num [defaultCfg]]
      rw [show round2 ((1 : ℚ)/1000) = 0 from by
        norm_num [round2, round_half_even, Int.fract]]
      rw [show |(111 : ℚ)/100 - 11/10| = 1/100 from by norm_num]
      norm_num [defaultCfg])
    (by
      rw [show (10000 : ℚ) * (2 * defaultCfg.risk_per_trade) /
          (|(111 : ℚ)/100 - 11/10| / (1/10000) * 10) = 1/500 from by
        rw [show |(111 : ℚ)/100 - 11/10| = 1/100 from by norm_num]
        norm_num [defaultCfg]]
      rw [show round2 ((1 : ℚ)/500) = 0 from by
        norm_num [round2, round_half_even, Int.fract]]
      rw [show |(111 : ℚ)/100 - 11/10| = 1/100 from by norm_num]
      norm_num [defaultCfg])

theorem mem_range'_iff (s len m : ℕ) : m ∈ List.range' s len ↔ s ≤ m ∧ m < s + len := by
  induction len generalizing s with
  | zero => simp [List.range']
  | succ k ih =>
    simp only [List.range', List.mem_cons, ih]
    omega

/-- C6: `is_swing_high(bars, i, lookback)` is true iff `bars[i].high` is
strictly greater than every high in `[i-lookback, i-1]` and in
`[i+1, i+lookback]`, and is false whenever fewer than `lookback` bars
exist on either side; symmetrically `is_swing_low` with lows and strict
less-than. -/
theorem c6_swing_detector_contract (lookback : ℕ) (df : ℕ → Bar) (n idx : ℕ)
    (_hlb : 1 ≤ lookback) :
    (is_swing_high lookback df n idx = true ↔
      (lookback ≤ idx ∧ idx + lookback < n ∧
        (∀ i < idx, idx - lookback ≤ i → (df i).high < (df idx).high) ∧
        (∀ i < idx + lookback + 1, idx < i → (df i).high < (df idx).high))) ∧
    (is_swing_low lookback df n idx = true ↔
      (lookback ≤ idx ∧ idx + lookback < n ∧
        (∀ i < idx, idx - lookback ≤ i → (df idx).low < (df i).low) ∧
        (∀ i < idx + lookback + 1, idx < i → (df idx).low < (df i).low))) := by
  constructor
  · unfold is_swing_high
    by_cases hguard : idx < lookback ∨ n ≤ idx + lookback
    · rw [if_pos hguard]
      constructor
      · intro h
        exact absurd h (by simp)
      · rintro ⟨ha, hb, -, -⟩
        omega
    · rw [if_neg hguard]
      push_neg at hguard
      rw [Bool.and_eq_true, List.all_eq_true, List.all_eq_true]
      simp only [decide_eq_true_eq, mem_range'_iff]
      constructor
      · rintro ⟨hL, hR⟩
        refine ⟨by omega, by omega, ?_, ?_⟩
        · intro i hi1 hi2
          exact hL i ⟨hi2, by omega⟩
        · intro i hi1 hi2
          exact hR i ⟨by omega, by omega⟩
      · rintro ⟨h1, h2, hL, hR⟩
        constructor
        · intro i hi
          exact hL i (by omega) (by omega)
        · intro i hi
          exact hR i (by omega) (by omega)
  · unfold is_swing_low
    by_cases hguard : idx < lookback ∨ n ≤ idx + lookback
    · rw [if_pos hguard]
      constructor
      · intro h
        exact absurd h (by simp)
      · rintro ⟨ha, hb, -, -⟩
        omega
    · rw [if_neg hguard]
      push_neg at hguard
      rw [Bool.and_eq_true, List.all_eq_true, List.all_eq_true]
      simp only [decide_eq_true_eq, mem_range'_iff]
      constructor
      · rintro ⟨hL, hR⟩
        refine ⟨by omega, by omega, ?_, ?_⟩
        · intro i hi1 hi2
          exact hL i ⟨hi2, by omega⟩
        · intro i hi1 hi2
          exact hR i ⟨by omega, by omega⟩
      · rintro ⟨h1, h2, hL, hR⟩
        constructor
        · intro i hi
          exact hL i (by omega) (by omega)
        · intro i hi
          exact hR i (by omega) (by omega)

/-- Witness for `c6_swing_detector_contract` at `lookback = 2`,
`n = 5`, `idx = 2` on `dfW`. -/
theorem c6_swing_detector_contract_witness :
    is_swing_high 2 dfW 5 2 = true ∧ is_swing_low 2 dfW 5 2 = true := by
  constructor
  · exact (c6_swing_detector_contract 2 dfW 5 2 (by norm_num)).1.mpr
      ⟨by norm_num, by norm_num,
        by intro i hi1 hi2; interval_cases i <;> norm_num [dfW],
        by intro i hi1 hi2; interval_cases i <;> norm_num [dfW]⟩
  · exact (c6_swing_detector_contract 2 dfW 5 2 (by norm_num)).2.mpr
      ⟨by norm_num, by norm_num,
        by intro i hi1 hi2; interval_cases i <;> norm_num [dfW],
        by intro i hi1 hi2; interval_cases i <;> norm_num [dfW]⟩

/-- C8: when the backward scan (at most the 100 candles scanned from the
confirmed extreme) contains no counter-trend candle, the
mitigation-assignment operations leave the state — in particular
`mitigation_high`, `mitigation_low`, `mitigation_candle_idx` —
completely unchanged. -/
theorem c8_no_counter_candle_keeps_mitigation (df : ℕ → Bar) (s : StratState)
    (high_idx low_idx : ℕ)
    (hred : ∀ i ≤ high_idx, high_idx < i + 100 → ¬ (is_bearish_candle (df i) = true))
    (hgreen : ∀ i ≤ low_idx, low_idx < i + 100 → ¬ (is_bullish_candle (df i) = true)) :
    update_mitigation_for_new_high df high_idx s = s ∧
    update_mitigation_for_new_low df low_idx s = s := by
  have hfindr : find_last_counter_candle_before_index df (high_idx + 1) true = none := by
    unfold find_last_counter_candle_before_index
    rw [Option.map_eq_none']
    rw [List.find?_eq_none]
    intro i hi
    rw [List.mem_map] at hi
    obtain ⟨k, hk, hik⟩ := hi
    rw [List.mem_range] at hk
    have hile : i ≤ high_idx := by omega
    have hilt : high_idx < i + 100 := by omega
    simp only [if_pos rfl]
    exact Bool.not_eq_true _ ▸ (by
      have := hred i hile hilt
      simpa using this)
  have hfindg : find_last_counter_candle_before_index df (low_idx + 1) false = none := by
    unfold find_last_counter_candle_before_index
    rw [Option.map_eq_none']
    rw [List.find?_eq_none]
    intro i hi
    rw [List.mem_map] at hi
    obtain ⟨k, hk, hik⟩ := hi
    rw [List.mem_range] at hk
    have hile : i ≤ low_idx := by omega
    have hilt : low_idx < i + 100 := by omega
    simp only [Bool.false_eq_true, if_false]
    exact Bool.not_eq_true _ ▸ (by
      have := hgreen i hile hilt
      simpa using this)
  constructor
  · unfold update_mitigation_for_new_high
    rw [hfindr]
  · unfold update_mitigation_for_new_low
    rw [hfindg]

/-- Witness for `c8_no_counter_candle_keeps_mitigation` on the all-doji
sequence at index 5. -/
theorem c8_no_counter_candle_keeps_mitigation_witness :
    update_mitigation_for_new_high dojiDf 5 initState = initState ∧
    update_mitigation_for_new_low dojiDf 5 initState = initState :=
  c8_no_counter_candle_keeps_mitigation dojiDf initState 5 5
    (fun i _ _ => by simp [is_bearish_candle, dojiDf])
    (fun i _ _ => by simp [is_bullish_candle, dojiDf])

theorem find_last_counter_eq_df (df : ℕ → Bar) (before_idx : ℕ) (red : Bool)
    (c : Bar) (j : ℕ)
    (h : find_last_counter_candle_before_index df before_idx red = some (c, j)) :
    c = df j := by
  unfold find_last_counter_candle_before_index at h
  rw [Option.map_eq_some'] at h
  obtain ⟨a, -, ha2⟩ := h
  cases ha2
  rfl

theorem check_bias_change_out_of_hours (cfg : StratConfig) (df : ℕ → Bar) (i : ℕ)
    (s : StratState)
    (hhour : ¬ (cfg.analysis_hours.1 ≤ (df i).hour ∧ (df i).hour < cfg.trading_hours.2)) :
    check_bias_change cfg df i s = (s, false) := by
  unfold check_bias_change
  cases hmh : s.mitigation_high with
  | none => cases s.mitigation_low <;> rfl
  | some mh =>
    cases hml : s.mitigation_low with
    | none => rfl
    | some ml =>
      simp only []
      rw [if_pos hhour]

theorem check_bias_change_no_flip_long (cfg : StratConfig) (df : ℕ → Bar) (i : ℕ)
    (s : StratState) (mh ml : ℚ)
    (hmh : s.mitigation_high = some mh) (hml : s.mitigation_low = some ml)
    (hbias : s.bias = Bias.LONG) (hcl : ¬ ((df i).close < ml)) :
    check_bias_change cfg df i s = (s, false) := by
  unfold check_bias_change
  rw [hmh, hml]
  simp only []
  by_cases hhour : cfg.analysis_hours.1 ≤ (df i).hour ∧ (df i).hour < cfg.trading_hours.2
  · rw [if_neg (not_not_intro hhour), if_pos hbias, if_neg hcl]
  · rw [if_pos hhour]

theorem check_bias_change_no_flip_short (cfg : StratConfig) (df : ℕ → Bar) (i : ℕ)
    (s : StratState) (mh ml : ℚ)
    (hmh : s.mitigation_high = some mh) (hml : s.mitigation_low = some ml)
    (hbias : s.bias = Bias.SHORT) (hch : ¬ (mh < (df i).close)) :
    check_bias_change cfg df i s = (s, false) := by
  unfold check_bias_change
  rw [hmh, hml]
  simp only []
  by_cases hhour : cfg.analysis_hours.1 ≤ (df i).hour ∧ (df i).hour < cfg.trading_hours.2
  · rw [if_neg (not_not_intro hhour), if_neg (by rw [hbias]; simp), if_neg hch]
  · rw [if_pos hhour]

theorem check_bias_change_long_flip (cfg : StratConfig) (df : ℕ → Bar) (i : ℕ)
    (s : StratState) (mh ml : ℚ)
    (hmh : s.mitigation_high = some mh) (hml : s.mitigation_low = some ml)
    (hhour : cfg.analysis_hours.1 ≤ (df i).hour ∧ (df i).hour < cfg.trading_hours.2)
    (hbias : s.bias = Bias.LONG) (hcl : (df i).close < ml) :
    (check_bias_change cfg df i s).2 = true ∧
    (check_bias_change cfg df i s).1.bias = Bias.SHORT ∧
    (check_bias_change cfg df i s).1.ready_to_trade = s.ready_to_trade ∧
    (check_bias_change cfg df i s).1.mitigation_tested = s.mitigation_tested ∧
    (check_bias_change cfg df i s).1.entry_candle_count = s.entry_candle_count ∧
    (∃ j, (check_bias_change cfg df i s).1.mitigation_high = some (df j).high ∧
      (check_bias_change cfg df i s).1.mitigation_low = some (df j).low) := by
  unfold check_bias_change
  rw [hmh, hml]
  simp only []
  rw [if_neg (not_not_intro hhour), if_pos hbias, if_pos hcl]
  cases hfc : find_last_counter_candle_before_index df i false with
  | none => exact ⟨rfl, rfl, rfl, rfl, rfl, i, rfl, rfl⟩
  | some cj =>
    obtain ⟨c, j⟩ := cj
    have hc := find_last_counter_eq_df df i false c j hfc
    subst hc
    exact ⟨rfl, rfl, rfl, rfl, rfl, j, rfl, rfl⟩

theorem check_bias_change_short_flip (cfg : StratConfig) (df : ℕ → Bar) (i : ℕ)
    (s : StratState) (mh ml : ℚ)
    (hmh : s.mitigation_high = some mh) (hml : s.mitigation_low = some ml)
    (hhour : cfg.analysis_hours.1 ≤ (df i).hour ∧ (df i).hour < cfg.trading_hours.2)
    (hbias : s.bias = Bias.SHORT) (hch : mh < (df i).close) :
    (check_bias_change cfg df i s).2 = true ∧
    (check_bias_change cfg df i s).1.bias = Bias.LONG ∧
    (check_bias_change cfg df i s).1.ready_to_trade = false ∧
    (check_bias_change cfg df i s).1.mitigation_tested = false ∧
    (check_bias_change cfg df i s).1.entry_candle_count = 0 ∧
    (check_bias_change cfg df i s).1.last_bias_change_idx = some i ∧
    (∃ j, (check_bias_change cfg df i s).1.mitigation_high = some (df j).high ∧
      (check_bias_change cfg df i s).1.mitigation_low = some (df j).low) := by
  unfold check_bias_change
  rw [hmh, hml]
  simp only []
  rw [if_neg (not_not_intro hhour), if_neg (by rw [hbias]; simp), if_pos hch]
  cases hfc : find_last_counter_candle_before_index df i true with
  | none => exact ⟨rfl, rfl, rfl, rfl, rfl, rfl, i, rfl, rfl⟩
  | some cj =>
    obtain ⟨c, j⟩ := cj
    have hc := find_last_counter_eq_df df i true c j hfc
    subst hc
    exact ⟨rfl, rfl, rfl, rfl, rfl, rfl, j, rfl, rfl⟩

/-- C5 counterexample: a LONG state with mitigation zone [1, 2] and a bar
closing at 0.5 < 1, but at hour 03:00: `check_bias_change` does not flip,
so "flips iff close < mitigation_low" fails without the hour condition. -/
theorem c5_strict_flip_iff_cex :
    (stateLong 1 2).bias = Bias.LONG ∧
    (stateLong 1 2).mitigation_low = some 1 ∧
    (nightDf 0).close < 1 ∧
    check_bias_change defaultCfg nightDf 0 (stateLong 1 2) = (stateLong 1 2, false) := by
  refine ⟨rfl, rfl, by norm_num [nightDf], ?_⟩
  exact check_bias_change_out_of_hours defaultCfg nightDf 0 (stateLong 1 2)
    (by norm_num [nightDf, defaultCfg])

/-- C5 amended: a close exactly equal to the mitigation boundary never
flips the bias (any hour); and for bars whose hour lies in
`[analysis_hours.0, trading_hours.1)`, LONG flips to SHORT iff the close
is strictly below `mitigation_low`, and SHORT flips to LONG iff the close
is strictly above `mitigation_high`. -/
theorem c5_strict_flip_iff (cfg : StratConfig) (df : ℕ → Bar) (i : ℕ)
    (s : StratState) (mh ml : ℚ)
    (hmh : s.mitigation_high = some mh) (hml : s.mitigation_low = some ml) :
    ((s.bias = Bias.LONG → (df i).close = ml → check_bias_change cfg df i s = (s, false)) ∧
     (s.bias = Bias.SHORT → (df i).close = mh → check_bias_change cfg df i s = (s, false))) ∧
    (cfg.analysis_hours.1 ≤ (df i).hour → (df i).hour < cfg.trading_hours.2 →
      ((s.bias = Bias.LONG →
         (((check_bias_change cfg df i s).2 = true ∧
           (check_bias_change cfg df i s).1.bias = Bias.SHORT) ↔ (df i).close < ml)) ∧
       (s.bias = Bias.SHORT →
         (((check_bias_change cfg df i s).2 = true ∧
           (check_bias_change cfg df i s).1.bias = Bias.LONG) ↔ mh < (df i).close)))) := by
  refine ⟨⟨?_, ?_⟩, ?_⟩
  · intro hbias hcl
    exact check_bias_change_no_flip_long cfg df i s mh ml hmh hml hbias
      (by rw [hcl]; exact lt_irrefl ml)
  · intro hbias hch
    exact check_bias_change_no_flip_short cfg df i s mh ml hmh hml hbias
      (by rw [hch]; exact lt_irrefl mh)
  · intro h1 h2
    constructor
    · intro hbias
      constructor
      · rintro ⟨hflip, -⟩
        by_contra hcl
        rw [check_bias_change_no_flip_long cfg df i s mh ml hmh hml hbias hcl] at hflip
        simp at hflip
      · intro hcl
        obtain ⟨ha, hb, -⟩ :=
          check_bias_change_long_flip cfg df i s mh ml hmh hml ⟨h1, h2⟩ hbias hcl
        exact ⟨ha, hb⟩
    · intro hbias
      constructor
      · rintro ⟨hflip, -⟩
        by_contra hch
        rw [check_bias_change_no_flip_short cfg df i s mh ml hmh hml hbias hch] at hflip
        simp at hflip
      · intro hch
        obtain ⟨ha, hb, -⟩ :=
          check_bias_change_short_flip cfg df i s mh ml hmh hml ⟨h1, h2⟩ hbias hch
        exact ⟨ha, hb⟩

/-- Witness for `c5_strict_flip_iff`: equality at the boundary does not
flip (all-doji bar closing exactly at mitigation_low = 1), and an
in-hours close 0.5 < 1 does flip LONG→SHORT. -/
theorem c5_strict_flip_iff_witness :
    check_bias_change defaultCfg dojiDf 0 (stateLong 1 2) = (stateLong 1 2, false) ∧
    ((check_bias_change defaultCfg flipDf 0 (stateLong 1 2)).2 = true ∧
      (check_bias_change defaultCfg flipDf 0 (stateLong 1 2)).1.bias = Bias.SHORT) := by
  constructor
  · exact (c5_strict_flip_iff defaultCfg dojiDf 0 (stateLong 1 2) 2 1 rfl rfl).1.1
      rfl (by norm_num [dojiDf])
  · exact ((c5_strict_flip_iff defaultCfg flipDf 0 (stateLong 1 2) 2 1 rfl rfl).2
      (by norm_num [flipDf, defaultCfg]) (by norm_num [flipDf, defaultCfg])).1
      rfl |>.mpr (by norm_num [flipDf])

/-- C2 (code divergence): an in-hours bar closing at 0.5 < mitigation_low
= 1 flips the bias LONG→SHORT, yet the post-state keeps
`ready_to_trade = true`, `mitigation_tested = true` and
`entry_candle_count = 3` — the readiness reset exists only in the
SHORT→LONG branch of `check_bias_change` (strategy.py:639-643). -/
theorem c2_long_to_short_flip_keeps_readiness :
    (check_bias_change defaultCfg flipDf 0 c2state).2 = true ∧
    (check_bias_change defaultCfg flipDf 0 c2state).1.bias = Bias.SHORT ∧
    (check_bias_change defaultCfg flipDf 0 c2state).1.ready_to_trade = true ∧
    (check_bias_change defaultCfg flipDf 0 c2state).1.mitigation_tested = true ∧
    (check_bias_change defaultCfg flipDf 0 c2state).1.entry_candle_count = 3 := by
  obtain ⟨h1, h2, h3, h4, h5, -⟩ :=
    check_bias_change_long_flip defaultCfg flipDf 0 c2state 2 1 rfl rfl
      (by norm_num [flipDf, defaultCfg]) rfl (by norm_num [flipDf])
  exact ⟨h1, h2, by rw [h3]; rfl, by rw [h4]; rfl, by rw [h5]; rfl⟩

theorem usl_init_high_of_some (s : StratState) (rh : ℚ)
    (h : s.reference_high = some rh) : usl_init_high s = s := by
  unfold usl_init_high
  rw [h]

theorem usl_init_low_of_some (s : StratState) (rl : ℚ)
    (h : s.reference_low = some rl) : usl_init_low s = s := by
  unfold usl_init_low
  rw [h]

theorem usl_detect_high_spec (cfg : StratConfig) (df : ℕ → Bar) (n i : ℕ)
    (s : StratState) : ∃ l, usl_detect_high cfg df n i s =
      { s with pending_swing_highs := l } := by
  unfold usl_detect_high
  split_ifs <;> exact ⟨_, rfl⟩

theorem usl_detect_low_spec (cfg : StratConfig) (df : ℕ → Bar) (n i : ℕ)
    (s : StratState) : ∃ l, usl_detect_low cfg df n i s =
      { s with pending_swing_lows := l } := by
  unfold usl_detect_low
  split_ifs <;> exact ⟨_, rfl⟩

theorem update_mitigation_for_new_high_cases (df : ℕ → Bar) (idx : ℕ)
    (s : StratState) :
    update_mitigation_for_new_high df idx s = s ∨
    ∃ j, update_mitigation_for_new_high df idx s =
      { s with
          mitigation_high := some (df j).high
          mitigation_low := some (df j).low
          mitigation_candle_idx := some j } := by
  unfold update_mitigation_for_new_high
  cases hfc : find_last_counter_candle_before_index df (idx + 1) true with
  | none => exact Or.inl rfl
  | some cj =>
    obtain ⟨c, j⟩ := cj
    have hc := find_last_counter_eq_df df (idx + 1) true c j hfc
    subst hc
    exact Or.inr ⟨j, rfl⟩

theorem update_mitigation_for_new_low_cases (df : ℕ → Bar) (idx : ℕ)
    (s : StratState) :
    update_mitigation_for_new_low df idx s = s ∨
    ∃ j, update_mitigation_for_new_low df idx s =
      { s with
          mitigation_high := some (df j).high
          mitigation_low := some (df j).low
          mitigation_candle_idx := some j } := by
  unfold update_mitigation_for_new_low
  cases hfc : find_last_counter_candle_before_index df (idx + 1) false with
  | none => exact Or.inl rfl
  | some cj =>
    obtain ⟨c, j⟩ := cj
    have hc := find_last_counter_eq_df df (idx + 1) false c j hfc
    subst hc
    exact Or.inr ⟨j, rfl⟩

theorem usl_confirm_high_spec (df : ℕ → Bar) (candle : Bar) (s : StratState) :
    usl_confirm_high df candle s = s ∨
    ∃ (p : ℚ × ℕ) (mh ml : Option ℚ) (mi : Option ℕ),
      usl_confirm_high df candle s =
        { s with
            reference_high := some p.1
            reference_high_idx := some p.2
            pending_swing_highs := []
            mitigation_high := mh
            mitigation_low := ml
            mitigation_candle_idx := mi } ∧
      ((mh = s.mitigation_high ∧ ml = s.mitigation_low) ∨
        ∃ j, mh = some (df j).high ∧ ml = some (df j).low) ∧
      (∃ rl, s.reference_low = some rl ∧ candle.low < rl) := by
  obtain ⟨sb, smh, sml, smci, srh, srl, srhi, srli, sph, spl, smt, srt, sec, slb, sla⟩ := s
  unfold usl_confirm_high
  cases srl with
  | none => exact Or.inl rfl
  | some rl =>
    cases hpm : py_max_by_fst sph with
    | none => exact Or.inl rfl
    | some hs =>
      simp only []
      split_ifs with h3 h4
      · rcases update_mitigation_for_new_high_cases df hs.2
            ⟨sb, smh, sml, smci, some hs.1, some rl, some hs.2, srli, [], spl,
              smt, srt, sec, slb, sla⟩ with h | ⟨j, h⟩
        · rw [h]
          exact Or.inr ⟨hs, smh, sml, smci, rfl, Or.inl ⟨rfl, rfl⟩, rl, rfl, h3⟩
        · rw [h]
          exact Or.inr ⟨hs, some (df j).high, some (df j).low, some j, rfl,
            Or.inr ⟨j, rfl, rfl⟩, rl, rfl, h3⟩
      · exact Or.inr ⟨hs, smh, sml, smci, rfl, Or.inl ⟨rfl, rfl⟩, rl, rfl, h3⟩
      · exact Or.inl rfl

theorem usl_confirm_low_spec (df : ℕ → Bar) (candle : Bar) (s : StratState) :
    usl_confirm_low df candle s = s ∨
    ∃ (p : ℚ × ℕ) (mh ml : Option ℚ) (mi : Option ℕ),
      usl_confirm_low df candle s =
        { s with
            reference_low := some p.1
            reference_low_idx := some p.2
            pending_swing_lows := []
            mitigation_high := mh
            mitigation_low := ml
            mitigation_candle_idx := mi } ∧
      ((mh = s.mitigation_high ∧ ml = s.mitigation_low) ∨
        ∃ j, mh = some (df j).high ∧ ml = some (df j).low) ∧
      (∃ rh, s.reference_high = some rh ∧ rh < candle.high) := by
  obtain ⟨sb, smh, sml, smci, srh, srl, srhi, srli, sph, spl, smt, srt, sec, slb, sla⟩ := s
  unfold usl_confirm_low
  cases srh with
  | none => exact Or.inl rfl
  | some rh =>
    cases hpm : py_min_by_fst spl with
    | none => exact Or.inl rfl
    | some ls =>
      simp only []
      split_ifs with h3 h4
      · rcases update_mitigation_for_new_low_cases df ls.2
            ⟨sb, smh, sml, smci, some rh, some ls.1, srhi, some ls.2, sph, [],
              smt, srt, sec, slb, sla⟩ with h | ⟨j, h⟩
        · rw [h]
          exact Or.inr ⟨ls, smh, sml, smci, rfl, Or.inl ⟨rfl, rfl⟩, rh, rfl, h3⟩
        · rw [h]
          exact Or.inr ⟨ls, some (df j).high, some (df j).low, some j, rfl,
            Or.inr ⟨j, rfl, rfl⟩, rh, rfl, h3⟩
      · exact Or.inr ⟨ls, smh, sml, smci, rfl, Or.inl ⟨rfl, rfl⟩, rh, rfl, h3⟩
      · exact Or.inl rfl

/-- C4: while both reference levels are set, a bar changes the reference
high only if its low strictly breaks below the reference low, and changes
the reference low only if its high strictly breaks above the (check-time)
reference high; bars merely equal to a boundary never update a reference
level. -/
theorem c4_reference_levels_update_only_on_strict_break
    (cfg : StratConfig) (df : ℕ → Bar) (n i : ℕ) (s : StratState) (rh rl : ℚ)
    (hrh : s.reference_high = some rh) (hrl : s.reference_low = some rl) :
    ((update_swing_levels cfg df n i s).reference_high ≠ s.reference_high →
      (df i).low < rl) ∧
    ((update_swing_levels cfg df n i s).reference_low ≠ s.reference_low →
      ∃ rh', (update_swing_levels cfg df n i s).reference_high = some rh' ∧
        rh' < (df i).high) := by
  unfold update_swing_levels
  simp only []
  by_cases hhour : cfg.analysis_hours.1 ≤ (df i).hour ∧ (df i).hour < cfg.trading_hours.2
  · rw [if_pos hhour]
    rw [usl_init_high_of_some s rh hrh, usl_init_low_of_some s rl hrl]
    obtain ⟨l3, h3⟩ := usl_detect_high_spec cfg df n i s
    rw [h3]
    obtain ⟨l4, h4⟩ := usl_detect_low_spec cfg df n i { s with pending_swing_highs := l3 }
    rw [h4]
    rcases usl_confirm_high_spec df (df i)
        { { s with pending_swing_highs := l3 } with pending_swing_lows := l4 } with
      h5 | ⟨p5, mh5, ml5, mi5, h5, -, rl5, hrl5, hbrk5⟩
    · rw [h5]
      rcases usl_confirm_low_spec df (df i)
          { { s with pending_swing_highs := l3 } with pending_swing_lows := l4 } with
        h6 | ⟨p6, mh6, ml6, mi6, h6, -, rh6, hrh6, hbrk6⟩
      · rw [h6]
        exact ⟨fun h => absurd rfl h, fun h => absurd rfl h⟩
      · rw [h6]
        exact ⟨fun h => absurd rfl h, fun _ => ⟨rh6, hrh6, hbrk6⟩⟩
    · have hrleq : rl5 = rl := by
        have h0 : ({ { s with pending_swing_highs := l3 } with
            pending_swing_lows := l4 } : StratState).reference_low = some rl := hrl
        exact Option.some.inj (hrl5.symm.trans h0)
      rw [h5]
      rcases usl_confirm_low_spec df (df i)
          { { { s with pending_swing_highs := l3 } with pending_swing_lows := l4 } with
              reference_high := some p5.1
              reference_high_idx := some p5.2
              pending_swing_highs := []
              mitigation_high := mh5
              mitigation_low := ml5
              mitigation_candle_idx := mi5 } with
        h6 | ⟨p6, mh6, ml6, mi6, h6, -, rh6, hrh6, hbrk6⟩
      · rw [h6]
        exact ⟨fun _ => hrleq ▸ hbrk5, fun h => absurd rfl h⟩
      · rw [h6]
        exact ⟨fun _ => hrleq ▸ hbrk5, fun _ => ⟨rh6, hrh6, hbrk6⟩⟩
  · rw [if_neg hhour]
    exact ⟨fun h => absurd rfl h, fun h => absurd rfl h⟩

/-- Witness for `c4_reference_levels_update_only_on_strict_break` on the
all-doji sequence. -/
theorem c4_reference_levels_witness :
    ((update_swing_levels defaultCfg dojiDf 1 0 refState).reference_high ≠
        refState.reference_high → (dojiDf 0).low < 3) ∧
    ((update_swing_levels defaultCfg dojiDf 1 0 refState).reference_low ≠
        refState.reference_low →
      ∃ rh', (update_swing_levels defaultCfg dojiDf 1 0 refState).reference_high =
          some rh' ∧ rh' < (dojiDf 0).high) :=
  c4_reference_levels_update_only_on_strict_break defaultCfg dojiDf 1 0 refState
    5 3 rfl rfl

theorem usl_init_high_pres (s : StratState) :
    (usl_init_high s).ready_to_trade = s.ready_to_trade ∧
    (usl_init_high s).entry_candle_count = s.entry_candle_count ∧
    (usl_init_high s).mitigation_tested = s.mitigation_tested ∧
    (usl_init_high s).bias = s.bias ∧
    (usl_init_high s).mitigation_high = s.mitigation_high ∧
    (usl_init_high s).mitigation_low = s.mitigation_low := by
  obtain ⟨sb, smh, sml, smci, srh, srl, srhi, srli, sph, spl, smt, srt, sec, slb, sla⟩ := s
  unfold usl_init_high
  cases srh <;> cases hpm : py_max_by_fst sph <;> exact ⟨rfl, rfl, rfl, rfl, rfl, rfl⟩

theorem usl_init_low_pres (s : StratState) :
    (usl_init_low s).ready_to_trade = s.ready_to_trade ∧
    (usl_init_low s).entry_candle_count = s.entry_candle_count ∧
    (usl_init_low s).mitigation_tested = s.mitigation_tested ∧
    (usl_init_low s).bias = s.bias ∧
    (usl_init_low s).mitigation_high = s.mitigation_high ∧
    (usl_init_low s).mitigation_low = s.mitigation_low := by
  obtain ⟨sb, smh, sml, smci, srh, srl, srhi, srli, sph, spl, smt, srt, sec, slb, sla⟩ := s
  unfold usl_init_low
  cases srl <;> cases hpm : py_min_by_fst spl <;> exact ⟨rfl, rfl, rfl, rfl, rfl, rfl⟩

theorem usl_detect_high_pres (cfg : StratConfig) (df : ℕ → Bar) (n i : ℕ)
    (s : StratState) :
    (usl_detect_high cfg df n i s).ready_to_trade = s.ready_to_trade ∧
    (usl_detect_high cfg df n i s).entry_candle_count = s.entry_candle_count ∧
    (usl_detect_high cfg df n i s).mitigation_tested = s.mitigation_tested ∧
    (usl_detect_high cfg df n i s).bias = s.bias ∧
    (usl_detect_high cfg df n i s).mitigation_high = s.mitigation_high ∧
    (usl_detect_high cfg df n i s).mitigation_low = s.mitigation_low := by
  obtain ⟨l, h⟩ := usl_detect_high_spec cfg df n i s
  rw [h]
  exact ⟨rfl, rfl, rfl, rfl, rfl, rfl⟩

theorem usl_detect_low_pres (cfg : StratConfig) (df : ℕ → Bar) (n i : ℕ)
    (s : StratState) :
    (usl_detect_low cfg df n i s).ready_to_trade = s.ready_to_trade ∧
    (usl_detect_low cfg df n i s).entry_candle_count = s.entry_candle_count ∧
    (usl_detect_low cfg df n i s).mitigation_tested = s.mitigation_tested ∧
    (usl_detect_low cfg df n i s).bias = s.bias ∧
    (usl_detect_low cfg df n i s).mitigation_high = s.mitigation_high ∧
    (usl_detect_low cfg df n i s).mitigation_low = s.mitigation_low := by
  obtain ⟨l, h⟩ := usl_detect_low_spec cfg df n i s
  rw [h]
  exact ⟨rfl, rfl, rfl, rfl, rfl, rfl⟩

theorem usl_confirm_high_pres (df : ℕ → Bar) (candle : Bar) (s : StratState) :
    (usl_confirm_high df candle s).ready_to_trade = s.ready_to_trade ∧
    (usl_confirm_high df candle s).entry_candle_count = s.entry_candle_count ∧
    (usl_confirm_high df candle s).mitigation_tested = s.mitigation_tested ∧
    (usl_confirm_high df candle s).bias = s.bias := by
  rcases usl_confirm_high_spec df candle s with h | ⟨p, mh, ml, mi, h, -, -⟩ <;>
    rw [h] <;> exact ⟨rfl, rfl, rfl, rfl⟩

theorem usl_confirm_low_pres (df : ℕ → Bar) (candle : Bar) (s : StratState) :
    (usl_confirm_low df candle s).ready_to_trade = s.ready_to_trade ∧
    (usl_confirm_low df candle s).entry_candle_count = s.entry_candle_count ∧
    (usl_confirm_low df candle s).mitigation_tested = s.mitigation_tested ∧
    (usl_confirm_low df candle s).bias = s.bias := by
  rcases usl_confirm_low_spec df candle s with h | ⟨p, mh, ml, mi, h, -, -⟩ <;>
    rw [h] <;> exact ⟨rfl, rfl, rfl, rfl⟩

theorem update_swing_levels_pres (cfg : StratConfig) (df : ℕ → Bar) (n i : ℕ)
    (s : StratState) :
    (update_swing_levels cfg df n i s).ready_to_trade = s.ready_to_trade ∧
    (update_swing_levels cfg df n i s).entry_candle_count = s.entry_candle_count ∧
    (update_swing_levels cfg df n i s).mitigation_tested = s.mitigation_tested ∧
    (update_swing_levels cfg df n i s).bias = s.bias := by
  unfold update_swing_levels
  simp only []
  split_ifs with h
  · obtain ⟨a1, a2, a3, a4, -, -⟩ := usl_init_high_pres s
    obtain ⟨b1, b2, b3, b4, -, -⟩ := usl_init_low_pres (usl_init_high s)
    obtain ⟨c1, c2, c3, c4, -, -⟩ :=
      usl_detect_high_pres cfg df n i (usl_init_low (usl_init_high s))
    obtain ⟨d1, d2, d3, d4, -, -⟩ :=
      usl_detect_low_pres cfg df n i
        (usl_detect_high cfg df n i (usl_init_low (usl_init_high s)))
    obtain ⟨e1, e2, e3, e4⟩ :=
      usl_confirm_high_pres df (df i)
        (usl_detect_low cfg df n i
          (usl_detect_high cfg df n i (usl_init_low (usl_init_high s))))
    obtain ⟨f1, f2, f3, f4⟩ :=
      usl_confirm_low_pres df (df i)
        (usl_confirm_high df (df i)
          (usl_detect_low cfg df n i
            (usl_detect_high cfg df n i (usl_init_low (usl_init_high s)))))
    exact ⟨f1.trans (e1.trans (d1.trans (c1.trans (b1.trans a1)))),
      f2.trans (e2.trans (d2.trans (c2.trans (b2.trans a2)))),
      f3.trans (e3.trans (d3.trans (c3.trans (b3.trans a3)))),
      f4.trans (e4.trans (d4.trans (c4.trans (b4.trans a4))))⟩
  · exact ⟨rfl, rfl, rfl, rfl⟩

theorem check_mitigation_test_pres (s : StratState) (candle : Bar) :
    (check_mitigation_test s candle).ready_to_trade = s.ready_to_trade ∧
    (check_mitigation_test s candle).entry_candle_count = s.entry_candle_count ∧
    (check_mitigation_test s candle).bias = s.bias ∧
    (check_mitigation_test s candle).mitigation_high = s.mitigation_high ∧
    (check_mitigation_test s candle).mitigation_low = s.mitigation_low := by
  obtain ⟨sb, smh, sml, smci, srh, srl, srhi, srli, sph, spl, smt, srt, sec, slb, sla⟩ := s
  unfold check_mitigation_test
  cases smh <;> cases sml <;>
    first
      | exact ⟨rfl, rfl, rfl, rfl, rfl⟩
      | (simp only []; split_ifs <;> exact ⟨rfl, rfl, rfl, rfl, rfl⟩)

theorem check_bias_change_unset (cfg : StratConfig) (df : ℕ → Bar) (i : ℕ)
    (s : StratState) (h : s.mitigation_high = none ∨ s.mitigation_low = none) :
    check_bias_change cfg df i s = (s, false) := by
  unfold check_bias_change
  rcases h with h | h
  · rw [h]
  · rw [h]
    cases s.mitigation_high <;> rfl

theorem check_bias_change_rt_ec (cfg : StratConfig) (df : ℕ → Bar) (i : ℕ)
    (s : StratState) (hrt : s.ready_to_trade = false) (hec : s.entry_candle_count = 0) :
    (check_bias_change cfg df i s).1.ready_to_trade = false ∧
    (check_bias_change cfg df i s).1.entry_candle_count = 0 := by
  rcases hmh : s.mitigation_high with _ | mh
  · rw [check_bias_change_unset cfg df i s (Or.inl hmh)]
    exact ⟨hrt, hec⟩
  rcases hml : s.mitigation_low with _ | ml
  · rw [check_bias_change_unset cfg df i s (Or.inr hml)]
    exact ⟨hrt, hec⟩
  by_cases hhour : cfg.analysis_hours.1 ≤ (df i).hour ∧ (df i).hour < cfg.trading_hours.2
  · cases hbias : s.bias with
    | LONG =>
      by_cases hcl : (df i).close < ml
      · obtain ⟨-, -, h3, -, h5, -⟩ :=
          check_bias_change_long_flip cfg df i s mh ml hmh hml hhour hbias hcl
        exact ⟨h3.trans hrt, h5.trans hec⟩
      · rw [check_bias_change_no_flip_long cfg df i s mh ml hmh hml hbias hcl]
        exact ⟨hrt, hec⟩
    | SHORT =>
      by_cases hch : mh < (df i).close
      · obtain ⟨-, -, h3, -, h5, -, -⟩ :=
          check_bias_change_short_flip cfg df i s mh ml hmh hml hhour hbias hch
        exact ⟨h3, h5⟩
      · rw [check_bias_change_no_flip_short cfg df i s mh ml hmh hml hbias hch]
        exact ⟨hrt, hec⟩
  · rw [check_bias_change_out_of_hours cfg df i s hhour]
    exact ⟨hrt, hec⟩

theorem check_daily_reset_cases (cfg : StratConfig) (b : Bar) (s : StratState) :
    check_daily_reset cfg b s = (s, false) ∨
    check_daily_reset cfg b s =
      ({ reset_daily_state s with last_analysis_day := some b.day }, true) := by
  unfold check_daily_reset
  split_ifs with h
  · exact Or.inr rfl
  · exact Or.inl rfl

theorem driver_tail_rt_ec (cfg : StratConfig) (df : ℕ → Bar) (n i : ℕ)
    (s1 : StratState) (h1 : s1.ready_to_trade = false)
    (h2 : s1.entry_candle_count = 0) :
    (driver_tail cfg df n i s1).ready_to_trade = false ∧
    (driver_tail cfg df n i s1).entry_candle_count = 0 := by
  unfold driver_tail
  simp only []
  obtain ⟨p1, p2, -, -⟩ := update_swing_levels_pres cfg df n i s1
  obtain ⟨q1, q2⟩ := check_bias_change_rt_ec cfg df i (update_swing_levels cfg df n i s1)
    (p1.trans h1) (p2.trans h2)
  obtain ⟨r1, r2, -, -, -⟩ := check_mitigation_test_pres
    ((check_bias_change cfg df i (update_swing_levels cfg df n i s1)).1) (df i)
  have h4rt := r1.trans q1
  have h4ec := r2.trans q2
  rw [if_neg (by rw [h4rt]; simp)]
  exact ⟨h4rt, h4ec⟩

/-- C7 (code divergence): nothing in the strategy or the driver ever sets
`ready_to_trade` to true, so in any driver run starting from the
constructor state `entry_candle_count` is 0 on every bar, and the
take-profit assigned to every eligible entry — first, second, third and
later alike — is 25 pips; the 20- and 15-pip rungs of the ladder are
unreachable. -/
theorem c7_tp_ladder_never_advances (cfg : StratConfig) (df : ℕ → Bar) (n i : ℕ)
    (s : StratState)
    (hrt : s.ready_to_trade = false) (hec : s.entry_candle_count = 0) :
    (driver_bar_update cfg df n i s).ready_to_trade = false ∧
    (driver_bar_update cfg df n i s).entry_candle_count = 0 ∧
    get_tp_pips_for_entry_candle (driver_bar_update cfg df n i s) = 25 ∧
    initState.ready_to_trade = false ∧ initState.entry_candle_count = 0 := by
  have hmain : (driver_bar_update cfg df n i s).ready_to_trade = false ∧
      (driver_bar_update cfg df n i s).entry_candle_count = 0 := by
    unfold driver_bar_update
    simp only []
    rcases check_daily_reset_cases cfg (df i) s with h | h <;> rw [h]
    · exact driver_tail_rt_ec cfg df n i s hrt hec
    · exact driver_tail_rt_ec cfg df n i
        { reset_daily_state s with last_analysis_day := some (df i).day } rfl rfl
  refine ⟨hmain.1, hmain.2, ?_, rfl, rfl⟩
  unfold get_tp_pips_for_entry_candle
  rw [hmain.2]
  simp

/-- Witness for `c7_tp_ladder_never_advances`: the constructor state on
the all-doji sequence. -/
theorem c7_tp_ladder_never_advances_witness :
    (driver_bar_update defaultCfg dojiDf 1 0 initState).ready_to_trade = false ∧
    (driver_bar_update defaultCfg dojiDf 1 0 initState).entry_candle_count = 0 ∧
    get_tp_pips_for_entry_candle (driver_bar_update defaultCfg dojiDf 1 0 initState) = 25 ∧
    initState.ready_to_trade = false ∧ initState.entry_candle_count = 0 :=
  c7_tp_ladder_never_advances defaultCfg dojiDf 1 0 initState rfl rfl

theorem update_swing_levels_mitigation_cases (cfg : StratConfig) (df : ℕ → Bar)
    (n i : ℕ) (s : StratState) :
    ((update_swing_levels cfg df n i s).mitigation_high = s.mitigation_high ∧
     (update_swing_levels cfg df n i s).mitigation_low = s.mitigation_low) ∨
    ∃ j, (update_swing_levels cfg df n i s).mitigation_high = some (df j).high ∧
      (update_swing_levels cfg df n i s).mitigation_low = some (df j).low := by
  unfold update_swing_levels
  simp only []
  split_ifs with h
  · obtain ⟨-, -, -, -, a5, a6⟩ := usl_init_high_pres s
    obtain ⟨-, -, -, -, b5, b6⟩ := usl_init_low_pres (usl_init_high s)
    obtain ⟨-, -, -, -, c5, c6⟩ :=
      usl_detect_high_pres cfg df n i (usl_init_low (usl_init_high s))
    obtain ⟨-, -, -, -, d5, d6⟩ :=
      usl_detect_low_pres cfg df n i
        (usl_detect_high cfg df n i (usl_init_low (usl_init_high s)))
    have hXmh := d5.trans (c5.trans (b5.trans a5))
    have hXml := d6.trans (c6.trans (b6.trans a6))
    rcases usl_confirm_high_spec df (df i)
        (usl_detect_low cfg df n i
          (usl_detect_high cfg df n i (usl_init_low (usl_init_high s)))) with
      h5 | ⟨p5, mh5, ml5, mi5, h5, hchar5, -⟩
    · rw [h5]
      rcases usl_confirm_low_spec df (df i)
          (usl_detect_low cfg df n i
            (usl_detect_high cfg df n i (usl_init_low (usl_init_high s)))) with
        h6 | ⟨p6, mh6, ml6, mi6, h6, hchar6, -⟩
      · rw [h6]
        exact Or.inl ⟨hXmh, hXml⟩
      · rw [h6]
        rcases hchar6 with ⟨e1, e2⟩ | ⟨j, e1, e2⟩
        · exact Or.inl ⟨e1.trans hXmh, e2.trans hXml⟩
        · exact Or.inr ⟨j, e1, e2⟩
    · rw [h5]
      rcases usl_confirm_low_spec df (df i)
          { (usl_detect_low cfg df n i
              (usl_detect_high cfg df n i (usl_init_low (usl_init_high s)))) with
              reference_high := some p5.1
              reference_high_idx := some p5.2
              pending_swing_highs := []
              mitigation_high := mh5
              mitigation_low := ml5
              mitigation_candle_idx := mi5 } with
        h6 | ⟨p6, mh6, ml6, mi6, h6, hchar6, -⟩
      · rw [h6]
        rcases hchar5 with ⟨e1, e2⟩ | ⟨j, e1, e2⟩
        · exact Or.inl ⟨e1.trans hXmh, e2.trans hXml⟩
        · exact Or.inr ⟨j, e1, e2⟩
      · rw [h6]
        rcases hchar6 with ⟨e1, e2⟩ | ⟨j, e1, e2⟩
        · rcases hchar5 with ⟨f1, f2⟩ | ⟨j, f1, f2⟩
          · exact Or.inl ⟨(e1.trans f1).trans hXmh, (e2.trans f2).trans hXml⟩
          · exact Or.inr ⟨j, e1.trans f1, e2.trans f2⟩
        · exact Or.inr ⟨j, e1, e2⟩
  · exact Or.inl ⟨rfl, rfl⟩

/-- C10: after construction, after `reset_daily_state`, and across every
per-bar operation, `mitigation_high`/`mitigation_low` are both unset or
both set from a single candle's high and low, so when set
`mitigation_low ≤ mitigation_high` holds for every OHLC-valid bar
sequence. -/
theorem c10_mitigation_zone_well_formed (df : ℕ → Bar)
    (hdf : ∀ j, ValidBar (df j)) :
    mitigationPaired initState ∧
    (∀ s, mitigationPaired (reset_daily_state s)) ∧
    (∀ cfg n i s, mitigationPaired s →
      mitigationPaired (update_swing_levels cfg df n i s)) ∧
    (∀ cfg i s, mitigationPaired s →
      mitigationPaired (check_bias_change cfg df i s).1) ∧
    (∀ idx s, mitigationPaired s →
      mitigationPaired (update_mitigation_for_new_high df idx s)) ∧
    (∀ idx s, mitigationPaired s →
      mitigationPaired (update_mitigation_for_new_low df idx s)) := by
  have hbar : ∀ j, (df j).low ≤ (df j).high :=
    fun j => (hdf j).1.trans (hdf j).2.2.1
  refine ⟨Or.inl ⟨rfl, rfl⟩, fun s => Or.inl ⟨rfl, rfl⟩, ?_, ?_, ?_, ?_⟩
  · intro cfg n i s hs
    rcases update_swing_levels_mitigation_cases cfg df n i s with ⟨e1, e2⟩ | ⟨j, e1, e2⟩
    · rcases hs with ⟨f1, f2⟩ | ⟨h, l, f1, f2, hle⟩
      · exact Or.inl ⟨e1.trans f1, e2.trans f2⟩
      · exact Or.inr ⟨h, l, e1.trans f1, e2.trans f2, hle⟩
    · exact Or.inr ⟨(df j).high, (df j).low, e1, e2, hbar j⟩
  · intro cfg i s hs
    rcases hmh : s.mitigation_high with _ | mh
    · rw [check_bias_change_unset cfg df i s (Or.inl hmh)]
      exact hs
    rcases hml : s.mitigation_low with _ | ml
    · rw [check_bias_change_unset cfg df i s (Or.inr hml)]
      exact hs
    by_cases hhour : cfg.analysis_hours.1 ≤ (df i).hour ∧ (df i).hour < cfg.trading_hours.2
    · cases hbias : s.bias with
      | LONG =>
        by_cases hcl : (df i).close < ml
        · obtain ⟨-, -, -, -, -, j, e1, e2⟩ :=
            check_bias_change_long_flip cfg df i s mh ml hmh hml hhour hbias hcl
          exact Or.inr ⟨(df j).high, (df j).low, e1, e2, hbar j⟩
        · rw [check_bias_change_no_flip_long cfg df i s mh ml hmh hml hbias hcl]
          exact hs
      | SHORT =>
        by_cases hch : mh < (df i).close
        · obtain ⟨-, -, -, -, -, -, j, e1, e2⟩ :=
            check_bias_change_short_flip cfg df i s mh ml hmh hml hhour hbias hch
          exact Or.inr ⟨(df j).high, (df j).low, e1, e2, hbar j⟩
        · rw [check_bias_change_no_flip_short cfg df i s mh ml hmh hml hbias hch]
          exact hs
    · rw [check_bias_change_out_of_hours cfg df i s hhour]
      exact hs
  · intro idx s hs
    rcases update_mitigation_for_new_high_cases df idx s with h | ⟨j, h⟩
    · rw [h]; exact hs
    · rw [h]
      exact Or.inr ⟨(df j).high, (df j).low, rfl, rfl, hbar j⟩
  · intro idx s hs
    rcases update_mitigation_for_new_low_cases df idx s with h | ⟨j, h⟩
    · rw [h]; exact hs
    · rw [h]
      exact Or.inr ⟨(df j).high, (df j).low, rfl, rfl, hbar j⟩

/-- Witness for `c10_mitigation_zone_well_formed`: the all-doji sequence
is OHLC-valid; the invariant transports across a swing update from the
constructor state and a bias-change check from a set zone. -/
theorem c10_mitigation_zone_well_formed_witness :
    mitigationPaired (update_swing_levels defaultCfg dojiDf 1 0 initState) ∧
    mitigationPaired (check_bias_change defaultCfg dojiDf 0 (stateLong 1 2)).1 := by
  have H := c10_mitigation_zone_well_formed dojiDf
    (fun j => ⟨by norm_num [dojiDf], by norm_num [dojiDf],
      by norm_num [dojiDf], by norm_num [dojiDf]⟩)
  exact ⟨H.2.2.1 defaultCfg 1 0 initState H.1,
    H.2.2.2.1 defaultCfg 0 (stateLong 1 2) (Or.inr ⟨2, 1, rfl, rfl, by norm_num⟩)⟩

/-- C3 counterexample: the per-bar core transition of `generate_signals`
is total — there is no `InvalidBarError` anywhere in the code — and on an
OHLC-invalid bar (high 1 < open 3) it does NOT leave the state unchanged:
the bar's close 0 < mitigation_low 1 flips the bias to SHORT exactly as
for a valid bar. -/
theorem c3_no_ohlc_validation_cex :
    (invalidDf 0).high < max (invalidDf 0).open_ (invalidDf 0).close ∧
    generate_signals_step defaultCfg invalidDf 1 0 c3state ≠ c3state ∧
    (generate_signals_step defaultCfg invalidDf 1 0 c3state).bias = Bias.SHORT := by
  refine ⟨by decide, ?_, by decide⟩
  decide

/-- C3 amended: the core performs no OHLC validation.  For any bar `b`
violating OHLC ordering (`high < max(open, close)`), processed inside the
analysis-to-trading window with a set mitigation zone and a close
strictly below `mitigation_low`, the `generate_signals` per-bar
transition treats `b` exactly like a valid bar: it completes (no
exception exists) and flips the bias to SHORT, changing the state. -/
theorem c3_invalid_bars_processed_normally (cfg : StratConfig) (b : Bar) (mh ml : ℚ)
    (_hinv : b.high < max b.open_ b.close)
    (hhour : cfg.analysis_hours.1 ≤ b.hour ∧ b.hour < cfg.trading_hours.2)
    (hcl : b.close < ml) :
    (generate_signals_step cfg (fun _ => b) 1 0
        { stateLong ml mh with last_analysis_day := some b.day }).bias = Bias.SHORT ∧
    generate_signals_step cfg (fun _ => b) 1 0
        { stateLong ml mh with last_analysis_day := some b.day } ≠
      { stateLong ml mh with last_analysis_day := some b.day } := by
  unfold generate_signals_step
  simp only []
  have hcdr : check_daily_reset cfg b
      { stateLong ml mh with last_analysis_day := some b.day } =
      ({ stateLong ml mh with last_analysis_day := some b.day }, false) := by
    unfold check_daily_reset
    rw [if_neg]
    rintro ⟨hne, -⟩
    exact hne rfl
  rw [hcdr]
  have husl : update_swing_levels cfg (fun _ => b) 1 0
      { stateLong ml mh with last_analysis_day := some b.day } =
      { stateLong ml mh with last_analysis_day := some b.day } := by
    unfold update_swing_levels
    simp only []
    rw [if_pos hhour]
    have e1 : usl_init_high { stateLong ml mh with last_analysis_day := some b.day } =
        { stateLong ml mh with last_analysis_day := some b.day } := rfl
    rw [e1]
    have e2 : usl_init_low { stateLong ml mh with last_analysis_day := some b.day } =
        { stateLong ml mh with last_analysis_day := some b.day } := rfl
    rw [e2]
    have e3 : usl_detect_high cfg (fun _ => b) 1 0
        { stateLong ml mh with last_analysis_day := some b.day } =
        { stateLong ml mh with last_analysis_day := some b.day } := by
      unfold usl_detect_high
      rw [if_neg (by omega)]
    rw [e3]
    have e4 : usl_detect_low cfg (fun _ => b) 1 0
        { stateLong ml mh with last_analysis_day := some b.day } =
        { stateLong ml mh with last_analysis_day := some b.day } := by
      unfold usl_detect_low
      rw [if_neg (by omega)]
    rw [e4]
    rfl
  rw [husl]
  obtain ⟨-, hbias, -⟩ := check_bias_change_long_flip cfg (fun _ => b) 0
    { stateLong ml mh with last_analysis_day := some b.day } mh ml rfl rfl hhour rfl hcl
  refine ⟨hbias, fun heq => ?_⟩
  have := congrArg StratState.bias heq
  rw [hbias] at this
  exact Bias.noConfusion this

/-- Witness for `c3_invalid_bars_processed_normally` on the concrete
invalid bar of `invalidDf`. -/
theorem c3_invalid_bars_processed_normally_witness :
    (generate_signals_step defaultCfg (fun _ => invalidDf 0) 1 0
        { stateLong 1 2 with last_analysis_day := some (invalidDf 0).day }).bias =
      Bias.SHORT ∧
    generate_signals_step defaultCfg (fun _ => invalidDf 0) 1 0
        { stateLong 1 2 with last_analysis_day := some (invalidDf 0).day } ≠
      { stateLong 1 2 with last_analysis_day := some (invalidDf 0).day } :=
  c3_invalid_bars_processed_normally defaultCfg (invalidDf 0) 2 1
    (by decide) (by decide) (by decide)
